import Mathlib

/-!
Shallow embedding of the Book Repository Flask application (`app.py`).

The MongoDB collections (`User`, `Book`, `Genre`) are modelled as Lean lists of
structures.  Form submissions arrive as `Option String` values (Python's
`request.form.get` returns the string or `None`).  A document field that is
absent or null in the stored document (so that no equality or regex filter
matches it) is modelled as `none`; fields the ORM declares `required` or that
the handlers always set are plain values.  Constructor assignments go through
the ORM's field descriptor, which substitutes the declared default for a
`None` value (`strFieldDefault` below); a queryset `update(**fields)` bypasses
the descriptor and stores null for a `None` value.
MongoDB object ids are modelled as `Nat`.  The external collaborators the
specification excludes (the ORM's persistence, the metadata HTTP lookup,
password hashing) are modelled as parameters: the lookup outcome is an
`Option String` (`none` = request failure or absent result) and the hash
function is an explicit argument.  `creation_date` (wall clock) is omitted:
no handler reads it.
-/

namespace BookRepository

/-- Stable insertion of `a` into `l` in front of the first element `b` with
`le a b` (helper for `sortLe`). -/
def insertLe (le : α → α → Bool) (a : α) : List α → List α
  | [] => [a]
  | b :: l => if le a b then a :: b :: l else b :: insertLe le a l

/-- Sorting by a boolean comparator (models both Python's `sorted` and a
MongoDB `order_by`). -/
def sortLe (le : α → α → Bool) : List α → List α
  | [] => []
  | x :: xs => insertLe le x (sortLe le xs)

/-- The numeric value of an ASCII decimal digit (helper for `pyInt`). -/
def digitVal (c : Char) : Option Nat :=
  if 48 ≤ c.toNat && c.toNat ≤ 57 then some (c.toNat - 48) else none

/-- Accumulate a decimal numeral; `none` on an empty or non-digit string
(helper for `pyInt`). -/
def parseDigits (acc : Option Nat) : List Char → Option Nat
  | [] => acc
  | c :: cs =>
    match digitVal c with
    | some d => parseDigits (some ((acc.getD 0) * 10 + d)) cs
    | none => none

/-- Is this one of the whitespace characters Python's `int` strips? -/
def isPySpace (c : Char) : Bool :=
  c == ' ' || c == '\t' || c == '\n' || c == '\r' || c == '\x0b' || c == '\x0c'

/-- Parse a decimal numeral with an optional sign (helper for `pyInt`). -/
def parseSigned (cs : List Char) : Option Int :=
  match cs with
  | '-' :: rest => (parseDigits none rest).map (fun n => -(n : Int))
  | '+' :: rest => (parseDigits none rest).map (fun n => (n : Int))
  | _ => (parseDigits none cs).map (fun n => (n : Int))

/-- `int(s)` as Python's `int` on a string: surrounding whitespace stripped,
optional sign, decimal digits; otherwise a `ValueError` (modelled as
`none`). -/
def pyInt (s : String) : Option Int :=
  parseSigned ((s.data.dropWhile isPySpace).reverse.dropWhile isPySpace).reverse

/-- A book document (`class Book(db.Document)` in `app.py`).
`user` is the denormalized owner username (`required=True`). -/
structure Book where
  id : Nat
  title : Option String
  author : Option String
  year : Option Int
  ISBN : Option Int
  short_description : Option String
  user : String
  comments : Option String
  rating : Option Int
  genre : Option String
  private_view : Option String
  book_thumbnail : Option String
deriving Repr, DecidableEq

/-- A genre document (`class Genre(db.Document)` in `app.py`). -/
structure Genre where
  genre : String
  icon : String
  description : String
deriving Repr, DecidableEq

/-- A user document (`class User(db.Document, UserMixin)` in `app.py`). -/
structure User where
  id : Nat
  active : Bool
  username : String
  password : String
  first_name : Option String
  last_name : Option String
  email : Option String
  roles : List String
deriving Repr, DecidableEq

/-- The form fields read by `save_book`, `update_book` and `save_search`:
title, author, year, isbn, short_description, comments, rating, genre,
private_view, each `request.form.get(...)`. -/
structure BookForm where
  title : Option String
  author : Option String
  year : Option String
  isbn : Option String
  short_description : Option String
  comments : Option String
  rating : Option String
  genre : Option String
  private_view : Option String
deriving Repr, DecidableEq

/-- `form_isbn`: `int(fields["ISBN"])` with `ValueError`/`TypeError` giving 0. -/
def form_isbn (isbn : Option String) : Int :=
  match isbn with
  | none => 0
  | some s => (pyInt s).getD 0

/-- `form_rating`: `int(fields["rating"])` with `ValueError` giving 1 and
`TypeError` (the field missing, i.e. `None`) giving 0. -/
def form_rating (rating : Option String) : Int :=
  match rating with
  | none => 0
  | some s => (pyInt s).getD 1

/-- ASCII lower-casing on code points (helper for case-insensitive match). -/
def lowerNat (n : Nat) : Nat :=
  if 65 ≤ n && n ≤ 90 then n + 32 else n

/-- Case-insensitive character equality (helper for `icontains`). -/
def charIEq (a b : Char) : Bool :=
  lowerNat a.toNat == lowerNat b.toNat

/-- Does `s` start with `pat`, case-insensitively? (helper for
`icontains`). -/
def iPrefixOf : List Char → List Char → Bool
  | [], _ => true
  | _ :: _, [] => false
  | a :: as, b :: bs => charIEq a b && iPrefixOf as bs

/-- Does `s` contain `pat` as a contiguous run, case-insensitively?
(helper for `icontains`). -/
def iContainsList (pat : List Char) : List Char → Bool
  | [] => pat.isEmpty
  | c :: rest => iPrefixOf pat (c :: rest) || iContainsList pat rest

/-- MongoEngine's `field__icontains=pat`: case-insensitive substring match on
the stored string; a missing/null field matches nothing. -/
def icontains (field : Option String) (pat : String) : Bool :=
  match field with
  | some s => iContainsList pat.data s.data
  | none => false

/-- MongoEngine's `rating__gte=r`: numeric comparison, missing/null fails. -/
def ratingGte (field : Option Int) (r : Int) : Bool :=
  match field with
  | some v => r ≤ v
  | none => false

/-- The `private_view="off"` filter used by every public-mode search query:
matches exactly the documents whose stored visibility value is `"off"`. -/
def isPublicVisible (b : Book) : Bool :=
  b.private_view == some "off"

/-- Strict lexicographic order on character lists, by code point (the order
Python and the document store use on strings). -/
def charListLt : List Char → List Char → Bool
  | [], [] => false
  | [], _ :: _ => true
  | _ :: _, [] => false
  | a :: as, b :: bs => a.toNat < b.toNat || (a.toNat == b.toNat && charListLt as bs)

/-- Non-strict lexicographic order on character lists. -/
def charListLe : List Char → List Char → Bool
  | [], _ => true
  | _ :: _, [] => false
  | a :: as, b :: bs => a.toNat < b.toNat || (a.toNat == b.toNat && charListLe as bs)

/-- Strict string order by code point. -/
def strLt (a b : String) : Bool :=
  charListLt a.data b.data

/-- Non-strict string order by code point. -/
def strLe (a b : String) : Bool :=
  charListLe a.data b.data

/-- Ascending MongoDB order on an optional string key (null/missing first). -/
def optStrLt (a b : Option String) : Bool :=
  match a, b with
  | none, none => false
  | none, some _ => true
  | some _, none => false
  | some x, some y => strLt x y

/-- Non-strict version of `optStrLt`. -/
def optStrLe (a b : Option String) : Bool :=
  match a, b with
  | none, _ => true
  | some _, none => false
  | some x, some y => strLe x y

/-- Ascending MongoDB order on an optional integer key (null/missing first). -/
def optIntLe (a b : Option Int) : Bool :=
  match a, b with
  | none, _ => true
  | some _, none => false
  | some x, some y => decide (x ≤ y)

/-- The comparator realising `order_by("+title", "+author", "-rating")`:
title ascending, then author ascending, then rating descending. -/
def bookLe (a b : Book) : Bool :=
  optStrLt a.title b.title ||
    (a.title == b.title &&
      (optStrLt a.author b.author ||
        (a.author == b.author && optIntLe b.rating a.rating)))

/-- Sorting a queryset by `order_by("+title", "+author", "-rating")`. -/
def sortBooks (l : List Book) : List Book :=
  sortLe bookLe l

/-- The comparator realising the `Book` collection's default meta ordering
`["title"]`, applied when a queryset has no explicit `order_by`. -/
def titleLe (a b : Book) : Bool :=
  optStrLe a.title b.title

/-- Default ordering of a `Book` queryset (meta `"ordering": ["title"]`). -/
def sortByTitle (l : List Book) : List Book :=
  sortLe titleLe l

/-- `.paginate(page=page, per_page=per)`: skip `(page-1)*per` documents and
return at most `per` of the rest. -/
def paginate (per page : Nat) (l : List α) : List α :=
  (l.drop (per * (page - 1))).take per

/-- Endpoint `member_page` (`/members/<int:page>`): the current user's own
books in the collection's default title order, paginated at 7 per page,
rendered together with `page_prev = page - 1` and `page_next = page + 1`. -/
def member_page (db : List Book) (current_username : String) (page : Nat) :
    List Book × Int × Int :=
  (paginate 7 page (sortByTitle (db.filter (fun b => b.user == current_username))),
    (page : Int) - 1, (page : Int) + 1)

/-- Endpoint `search_results` (`/search_results/<int:page>`): reads the saved
search form back from the session and runs one of six querysets, branching
first on `form_private_view == "on"`, then on `if form_isbn` and on
`form_genre is None`.  Returns the rendered page's data
(`book_query_results`, `page_prev`, `page_next`), or `none` when the handler
raises (the `icontains` filters are built from `form_title`/`form_author`
and fail on a missing (`None`) value). -/
def search_results (db : List Book) (current_username : String)
    (fields : BookForm) (page : Nat) : Option (List Book × Int × Int) :=
  if fields.private_view == some "on" then
    if form_isbn fields.isbn ≠ 0 then
      some (paginate 7 page (sortByTitle (db.filter (fun b =>
          b.user == current_username && b.ISBN == some (form_isbn fields.isbn)))),
        (page : Int) - 1, (page : Int) + 1)
    else
      match fields.genre with
      | none =>
        match fields.title, fields.author with
        | some t, some a =>
          some (paginate 7 page (sortBooks (db.filter (fun b =>
              b.user == current_username && icontains b.title t &&
                icontains b.author a &&
                ratingGte b.rating (form_rating fields.rating)))),
            (page : Int) - 1, (page : Int) + 1)
        | _, _ => none
      | some g =>
        match fields.title, fields.author with
        | some t, some a =>
          some (paginate 7 page (sortBooks (db.filter (fun b =>
              b.user == current_username && icontains b.title t &&
                icontains b.author a &&
                ratingGte b.rating (form_rating fields.rating) &&
                b.genre == some g))),
            (page : Int) - 1, (page : Int) + 1)
        | _, _ => none
  else
    if form_isbn fields.isbn ≠ 0 then
      some (paginate 7 page (sortByTitle (db.filter (fun b =>
          b.ISBN == some (form_isbn fields.isbn) && isPublicVisible b))),
        (page : Int) - 1, (page : Int) + 1)
    else
      match fields.genre with
      | none =>
        match fields.title, fields.author with
        | some t, some a =>
          some (paginate 7 page (sortBooks (db.filter (fun b =>
              icontains b.title t && icontains b.author a &&
                ratingGte b.rating (form_rating fields.rating) &&
                isPublicVisible b))),
            (page : Int) - 1, (page : Int) + 1)
        | _, _ => none
      | some g =>
        match fields.title, fields.author with
        | some t, some a =>
          some (paginate 7 page (sortBooks (db.filter (fun b =>
              icontains b.title t && icontains b.author a &&
                ratingGte b.rating (form_rating fields.rating) &&
                b.genre == some g && isPublicVisible b))),
            (page : Int) - 1, (page : Int) + 1)
        | _, _ => none

/-- The default thumbnail used when the Google Books lookup fails or returns
no usable item. -/
def placeholderThumbnail : String :=
  "/static/images/BR_logo_no_thumbnail.png"

/-- The thumbnail stored for a lookup outcome: on success the returned URL
with `http://` rewritten to `https://`, otherwise the placeholder. -/
def thumbnailFor (lookup : Option String) : String :=
  match lookup with
  | some url => url.replace "http://" "https://"
  | none => placeholderThumbnail

/-- Can an `IntField` accept this submitted value? (`None` is fine; a string
must parse as a Python `int`.) -/
def intFieldOk (v : Option String) : Bool :=
  match v with
  | none => true
  | some s => (pyInt s).isSome

/-- Does the submitted rating pass the `IntField(choices=[1,...,10])`
validation that `Document.save` runs? -/
def ratingChoiceOk (v : Option String) : Bool :=
  match v with
  | none => true
  | some s =>
    match pyInt s with
    | some n => 1 ≤ n && n ≤ 10
    | none => false

/-- MongoEngine's field descriptor (`BaseField.__set__`): assigning `None` to
a field that is not `null=True` substitutes the field's declared default, so
a document built through the constructor stores the default, not null. -/
def strFieldDefault (default : String) (v : Option String) : Option String :=
  match v with
  | none => some default
  | some s => some s

/-- `Book(...)` as built by `save_book`: every constructor keyword is routed
through the field descriptor, so an absent (`None`) value of a defaulted
`StringField` stores its declared default — `""` for title, author,
short_description, comments and genre, and `"off"` for `private_view`
(`app.py:88`).  The integer fields have no default (they stay absent) and
are converted; the owner is set to the current user. -/
def mkBook (id : Nat) (current_username : String) (form : BookForm)
    (thumb : String) : Book :=
  { id := id
    title := strFieldDefault "" form.title
    author := strFieldDefault "" form.author
    year := form.year.bind pyInt
    ISBN := form.isbn.bind pyInt
    short_description := strFieldDefault "" form.short_description
    user := current_username
    comments := strFieldDefault "" form.comments
    rating := form.rating.bind pyInt
    genre := strFieldDefault "" form.genre
    private_view := strFieldDefault "off" form.private_view
    book_thumbnail := some thumb }

/-- Does `book.save()` succeed for this form? (field conversion plus the
rating choices check; failure is caught and the book is not persisted). -/
def saveValid (form : BookForm) : Bool :=
  intFieldOk form.year && intFieldOk form.isbn && ratingChoiceOk form.rating

/-- Endpoint `save_book` (`/save_book`): build a `Book` owned by the current
user from the form, attach the thumbnail for the lookup outcome (any lookup
failure is caught and the placeholder used instead), then try to save it.
`newId` is the fresh object id the store would assign. -/
def save_book (db : List Book) (current_username : String) (form : BookForm)
    (lookup : Option String) (newId : Nat) : List Book :=
  let book := mkBook newId current_username form (thumbnailFor lookup)
  if saveValid form then db ++ [book] else db

/-- Does `book.update(**fields)` succeed for this form? (`update` converts the
integer fields but does not run the `choices` validation). -/
def updateValid (form : BookForm) : Bool :=
  intFieldOk form.year && intFieldOk form.isbn && intFieldOk form.rating

/-- The field overwrite `update_book` applies to the loaded book: every form
field is written back, `private_view` normalised to `"off"` unless it is
`"on"`, and the thumbnail refreshed from the lookup outcome.  `user` (and the
object id) are untouched. -/
def applyUpdate (b : Book) (form : BookForm) (lookup : Option String) : Book :=
  { b with
    title := form.title
    author := form.author
    year := form.year.bind pyInt
    ISBN := form.isbn.bind pyInt
    short_description := form.short_description
    comments := form.comments
    rating := form.rating.bind pyInt
    genre := form.genre
    private_view := some (if form.private_view == some "on" then "on" else "off")
    book_thumbnail := some (thumbnailFor lookup) }

/-- Endpoint `update_book` (`/update_book/<book_id>`): load the book by id
(`none` models the `DoesNotExist` error page when the id names no book),
then apply the field overwrite; an update failure is caught, leaving the
store unchanged.  The current user is only mentioned in log lines — the
handler never compares it with the book's owner. -/
def update_book (_current_username : String) (db : List Book) (book_id : Nat)
    (form : BookForm) (lookup : Option String) : Option (List Book) :=
  match db.find? (fun b => b.id == book_id) with
  | none => none
  | some _ =>
    if updateValid form then
      some (db.map (fun b => if b.id == book_id then applyUpdate b form lookup else b))
    else
      some db

/-- Endpoint `delete_book` (`/delete_book/<book_id>`): load the book by id
(`none` models the `DoesNotExist` error page) and delete it.  As with
`update_book`, the current user is never compared with the book's owner. -/
def delete_book (_current_username : String) (db : List Book) (book_id : Nat) :
    Option (List Book) :=
  match db.find? (fun b => b.id == book_id) with
  | none => none
  | some _ => some (db.filter (fun b => !(b.id == book_id)))

/-- The whole persistent state touched by the account-deletion handlers. -/
structure AppState where
  users : List User
  books : List Book
deriving Repr, DecidableEq

/-- Endpoint `delete_user` (`/delete_user`): the signed-in user deletes their
own account; every user document with that username and every book owned by
that username are removed. -/
def delete_user (st : AppState) (current_username : String) : AppState :=
  { users := st.users.filter (fun u => !(u.username == current_username))
    books := st.books.filter (fun b => !(b.user == current_username)) }

/-- Endpoint `admin_delete_user` (`/admin_delete_user/<user_id>`): load the
user by id (`none` models the `DoesNotExist` error page); unless the target
is the bootstrap `admin` account, delete the user's books and then the user
document itself. -/
def admin_delete_user (st : AppState) (user_id : Nat) : Option AppState :=
  match st.users.find? (fun u => u.id == user_id) with
  | none => none
  | some u =>
    if u.username == "admin" then some st
    else
      some { users := st.users.filter (fun v => !(v.id == user_id))
             books := st.books.filter (fun b => !(b.user == u.username)) }

/-- Python's `f"{book.genre}"` on the stored genre value (`None` prints as
`"None"`). -/
def genreKey (g : Option String) : String :=
  match g with
  | some s => s
  | none => "None"

/-- One step of the `genre_dict` loop: bump the count of `g`, preserving
first-occurrence key order as a Python dict does. -/
def bumpGenre (acc : List (String × Nat)) (g : String) : List (String × Nat) :=
  match acc with
  | [] => [(g, 1)]
  | (k, v) :: rest => if k == g then (k, v + 1) :: rest else (k, v) :: bumpGenre rest g

/-- The `genre_dict` built by `admin_dashboard`: book count per genre label. -/
def genre_dict (books : List Book) : List (String × Nat) :=
  books.foldl (fun acc b => bumpGenre acc (genreKey b.genre)) []

/-- `sorted(genre_dict.items(), key=lambda kv: (kv[1], kv[0]), reverse=True)`:
descending lexicographic order on (count, label).  `aggLe a b` means `a` may
come no later than `b`. -/
def aggLe (a b : String × Nat) : Bool :=
  if a.2 == b.2 then strLe b.1 a.1 else decide (b.2 < a.2)

/-- `tuple_in_right_order` from `admin_dashboard`: the per-genre counts
sorted by descending count, ties in descending label order. -/
def tuple_in_right_order (books : List Book) : List (String × Nat) :=
  sortLe aggLe (genre_dict books)

/-- Ascending order on usernames (`User.objects().order_by("username")`). -/
def usernameLe (a b : User) : Bool :=
  strLe a.username b.username

/-- Endpoint `admin_dashboard` (`/admin_dashboard/<int:page>`): all users in
username order paginated at 10 per page with `page_prev`/`page_next`, the
user and book counts, and the genre aggregate. -/
def admin_dashboard (users : List User) (books : List Book) (page : Nat) :
    List User × Int × Int × Nat × Nat × List (String × Nat) :=
  (paginate 10 page (sortLe usernameLe users),
    (page : Int) - 1, (page : Int) + 1,
    users.length, books.length, tuple_in_right_order books)

/-- Does `s` start with `pre`? (Python's `str.startswith`). -/
def strStartsWith (s pre : String) : Bool :=
  pre.data.isPrefixOf s.data

/-- The admin user-update form (`update_user`): `active` plus the per-user
profile fields, each `request.form.get(...)`. -/
structure AdminUserForm where
  active : Option String
  email : Option String
  first_name : Option String
  last_name : Option String
  password : Option String
  password_conf : Option String
deriving Repr, DecidableEq

/-- Endpoint `update_user` (`/update_user/<user_id>`): load the user by id
(`none` on `DoesNotExist`), force `active` to true for the bootstrap admin,
reject the update (state unchanged) when password and confirmation differ;
keep the submitted password untouched when it equals the stored hash and
carries the `$2b$` hash prefix, otherwise hash it with `hashPw` (Flask-User's
`hash_password`, which raises on `None`, modelled as `none`). -/
def update_user (hashPw : String → String) (users : List User) (user_id : Nat)
    (form : AdminUserForm) : Option (List User) :=
  match users.find? (fun u => u.id == user_id) with
  | none => none
  | some u =>
    let newActive : Bool :=
      if u.username == "admin" then true
      else if form.active == some "on" then true
      else false
    if !(form.password == form.password_conf) then some users
    else
      match form.password with
      | none => none
      | some p =>
        let newPassword := if p == u.password && strStartsWith p "$2b$" then p else hashPw p
        some (users.map (fun v =>
          if v.id == user_id then
            { v with
              active := newActive
              email := form.email
              first_name := form.first_name
              last_name := form.last_name
              password := newPassword }
          else v))

/-- Endpoint `load_genres` (`/load_genres`): when the genre collection is
empty, insert the decoded contents of `genre.json` (`none` models a missing
or unreadable file, in which case nothing is inserted); otherwise leave the
collection untouched. -/
def load_genres (db : List Genre) (file : Option (List Genre)) : List Genre :=
  if db.isEmpty then
    match file with
    | some gs => db ++ gs
    | none => db
  else db

/-- Endpoint `load_books` (`/load_books`): when the book collection is empty,
insert the decoded contents of `book.json` (`none` models a missing or
unreadable file); otherwise leave the collection untouched. -/
def load_books (db : List Book) (file : Option (List Book)) : List Book :=
  if db.isEmpty then
    match file with
    | some bs => db ++ bs
    | none => db
  else db

/-! ## Concrete sample data (used to instantiate the theorems) -/

/-- A sample public book owned by `alice`. -/
def wBook1 : Book :=
  { id := 1, title := some "Alpha", author := some "Ann", year := some 1999,
    ISBN := some 11, short_description := some "", user := "alice",
    comments := some "", rating := some 5, genre := some "Fantasy",
    private_view := some "off", book_thumbnail := some "t" }

/-- A sample private book owned by `bob`. -/
def wBook2 : Book :=
  { wBook1 with
    id := 2
    title := some "Beta"
    user := "bob"
    ISBN := some 22
    private_view := some "on" }

/-- A sample book owned by `bob` whose ISBN, genre and visibility fields are
absent/null in the stored document. -/
def wBook3 : Book :=
  { wBook1 with
    id := 3
    title := some "Gamma"
    user := "bob"
    ISBN := none
    private_view := none
    rating := some 9
    genre := none }

/-- A sample catalog store. -/
def wDb : List Book := [wBook1, wBook2, wBook3]

/-- A sample private-mode search form (blank ISBN, no genre submitted). -/
def wFormPriv : BookForm :=
  { title := some "a", author := some "", year := none, isbn := some "",
    short_description := some "", comments := some "", rating := some "",
    genre := none, private_view := some "on" }

/-- The same search in public mode (checkbox absent). -/
def wFormPub : BookForm :=
  { wFormPriv with private_view := none }

/-- A private-mode search with a genre selected. -/
def wFormGenre : BookForm :=
  { wFormPriv with genre := some "Fantasy" }

/-- A sample add/edit-book form with the visibility checkbox absent. -/
def wSaveForm : BookForm :=
  { title := some "Delta", author := some "Dan", year := some "2001",
    isbn := some "33", short_description := some "d", comments := some "c",
    rating := some "5", genre := some "Horror", private_view := none }

/-- The bootstrap admin account. -/
def wUserAdmin : User :=
  { id := 1, active := true, username := "admin", password := "$2b$aaa",
    first_name := some "Administrator", last_name := some "Administrator",
    email := some "a@x", roles := ["user", "Admin"] }

/-- A sample ordinary account. -/
def wUserAlice : User :=
  { id := 2, active := true, username := "alice", password := "$2b$abc",
    first_name := some "Alice", last_name := some "A", email := some "al@x",
    roles := ["user"] }

/-- Another sample ordinary account. -/
def wUserBob : User :=
  { id := 3, active := true, username := "bob", password := "$2b$bbb",
    first_name := some "Bob", last_name := some "B", email := some "bo@x",
    roles := ["user"] }

/-- A sample application state. -/
def wState : AppState :=
  { users := [wUserAdmin, wUserAlice, wUserBob], books := wDb }

/-- A sample admin user-update form resubmitting the stored hash unchanged. -/
def wAdminForm : AdminUserForm :=
  { active := some "on", email := some "al@x", first_name := some "Alice",
    last_name := some "A", password := some "$2b$abc",
    password_conf := some "$2b$abc" }

/-- A sample password-hashing function (stands in for Flask-User's
`hash_password` when instantiating theorems). -/
def wHash (s : String) : String :=
  String.append "$2b$h" s

/-- A sample genre document. -/
def wGenre : Genre :=
  { genre := "Fantasy", icon := "i", description := "d" }

/-! ## General lemmas about the sorting and pagination helpers -/

theorem mem_insertLe {le : α → α → Bool} {a x : α} {l : List α} :
    x ∈ insertLe le a l ↔ x = a ∨ x ∈ l := by
  induction l with
  | nil => simp [insertLe]
  | cons b l ih =>
    simp only [insertLe]
    split
    · simp [List.mem_cons]
    · simp only [List.mem_cons, ih]
      tauto

theorem mem_sortLe {le : α → α → Bool} {x : α} {l : List α} :
    x ∈ sortLe le l ↔ x ∈ l := by
  induction l with
  | nil => simp [sortLe]
  | cons b l ih => simp [sortLe, mem_insertLe, ih]

theorem mem_paginate {per page : Nat} {l : List α} {x : α}
    (h : x ∈ paginate per page l) : x ∈ l :=
  List.mem_of_mem_drop (List.mem_of_mem_take h)

theorem length_paginate_le (per page : Nat) (l : List α) :
    (paginate per page l).length ≤ per := by
  unfold paginate
  rw [List.length_take]
  exact min_le_left _ _

theorem pairwise_insertLe {le : α → α → Bool}
    (trans : ∀ x y z, le x y = true → le y z = true → le x z = true)
    (total : ∀ x y, le x y = true ∨ le y x = true) {a : α} {l : List α}
    (h : l.Pairwise (fun x y => le x y = true)) :
    (insertLe le a l).Pairwise (fun x y => le x y = true) := by
  induction l with
  | nil => simp [insertLe]
  | cons b l ih =>
    rcases h with - | ⟨hb, hl⟩
    simp only [insertLe]
    by_cases hab : le a b = true
    · rw [if_pos hab]
      refine List.Pairwise.cons ?_ (List.Pairwise.cons hb hl)
      intro y hy
      rcases List.mem_cons.mp hy with rfl | hy
      · exact hab
      · exact trans _ _ _ hab (hb y hy)
    · rw [if_neg hab]
      refine List.Pairwise.cons ?_ (ih hl)
      intro y hy
      rcases mem_insertLe.mp hy with heq | hy
      · rcases total a b with h | h
        · exact absurd h hab
        · rw [heq]
          exact h
      · exact hb y hy

theorem pairwise_sortLe {le : α → α → Bool}
    (trans : ∀ x y z, le x y = true → le y z = true → le x z = true)
    (total : ∀ x y, le x y = true ∨ le y x = true) (l : List α) :
    (sortLe le l).Pairwise (fun x y => le x y = true) := by
  induction l with
  | nil => simp [sortLe]
  | cons x xs ih =>
    simp only [sortLe]
    exact pairwise_insertLe trans total ih

theorem pairwise_paginate {R : α → α → Prop} {l : List α} (per page : Nat)
    (h : l.Pairwise R) : (paginate per page l).Pairwise R :=
  List.Pairwise.sublist ((List.take_sublist _ _).trans (List.drop_sublist _ _)) h

/-- Every element of a rendered (sorted, paginated) search branch satisfies
the branch's filter predicate. -/
theorem filter_prop_of_mem_branch {db : List Book} {p : Book → Bool}
    {le : Book → Book → Bool} {page : Nat} {b : Book}
    (h : b ∈ paginate 7 page (sortLe le (db.filter p))) : p b = true :=
  (List.mem_filter.mp (mem_sortLe.mp (mem_paginate h))).2

/-! ## The comparators are transitive and total -/

theorem charListLt_trans : ∀ a b c : List Char,
    charListLt a b = true → charListLt b c = true → charListLt a c = true := by
  intro a
  induction a with
  | nil =>
    intro b c h1 h2
    cases b <;> cases c <;> simp_all [charListLt]
  | cons x xs ih =>
    intro b c h1 h2
    cases b with
    | nil => simp [charListLt] at h1
    | cons y ys =>
      cases c with
      | nil => simp [charListLt] at h2
      | cons z zs =>
        simp only [charListLt, Bool.or_eq_true, Bool.and_eq_true,
          decide_eq_true_eq, beq_iff_eq] at h1 h2 ⊢
        rcases h1 with h1 | ⟨e1, h1⟩ <;> rcases h2 with h2 | ⟨e2, h2⟩
        · exact Or.inl (by omega)
        · exact Or.inl (by omega)
        · exact Or.inl (by omega)
        · exact Or.inr ⟨by omega, ih ys zs h1 h2⟩

theorem charListLt_conn : ∀ a b : List Char,
    charListLt a b = false → charListLt b a = false → a = b := by
  intro a
  induction a with
  | nil =>
    intro b h1 _
    cases b with
    | nil => rfl
    | cons y ys => simp [charListLt] at h1
  | cons x xs ih =>
    intro b h1 h2
    cases b with
    | nil => simp [charListLt] at h2
    | cons y ys =>
      simp only [charListLt, Bool.or_eq_false_iff, Bool.and_eq_false_iff,
        decide_eq_false_iff_not, beq_eq_false_iff_ne, ne_eq] at h1 h2
      obtain ⟨hlt1, h1'⟩ := h1
      obtain ⟨hlt2, h2'⟩ := h2
      have hn : x.toNat = y.toNat := by omega
      have hx : x = y := Char.ext (UInt32.ext hn)
      rcases h1' with h | h
      · exact absurd hn h
      rcases h2' with h' | h'
      · exact absurd hn.symm h'
      rw [hx, ih ys h h']

theorem charListLe_trans : ∀ a b c : List Char,
    charListLe a b = true → charListLe b c = true → charListLe a c = true := by
  intro a
  induction a with
  | nil => intro b c _ _; rfl
  | cons x xs ih =>
    intro b c h1 h2
    cases b with
    | nil => simp [charListLe] at h1
    | cons y ys =>
      cases c with
      | nil => simp [charListLe] at h2
      | cons z zs =>
        simp only [charListLe, Bool.or_eq_true, Bool.and_eq_true,
          decide_eq_true_eq, beq_iff_eq] at h1 h2 ⊢
        rcases h1 with h1 | ⟨e1, h1⟩ <;> rcases h2 with h2 | ⟨e2, h2⟩
        · exact Or.inl (by omega)
        · exact Or.inl (by omega)
        · exact Or.inl (by omega)
        · exact Or.inr ⟨by omega, ih ys zs h1 h2⟩

theorem charListLe_total : ∀ a b : List Char,
    charListLe a b = true ∨ charListLe b a = true := by
  intro a
  induction a with
  | nil => intro b; exact Or.inl rfl
  | cons x xs ih =>
    intro b
    cases b with
    | nil => exact Or.inr rfl
    | cons y ys =>
      simp only [charListLe, Bool.or_eq_true, Bool.and_eq_true,
        decide_eq_true_eq, beq_iff_eq]
      rcases Nat.lt_trichotomy x.toNat y.toNat with h | h | h
      · exact Or.inl (Or.inl h)
      · rcases ih ys with h' | h'
        · exact Or.inl (Or.inr ⟨h, h'⟩)
        · exact Or.inr (Or.inr ⟨h.symm, h'⟩)
      · exact Or.inr (Or.inl h)

theorem strLe_trans (a b c : String) (h1 : strLe a b = true)
    (h2 : strLe b c = true) : strLe a c = true :=
  charListLe_trans _ _ _ h1 h2

theorem strLe_total (a b : String) : strLe a b = true ∨ strLe b a = true :=
  charListLe_total _ _

theorem optStrLt_trans : ∀ a b c : Option String,
    optStrLt a b = true → optStrLt b c = true → optStrLt a c = true := by
  intro a b c h1 h2
  cases a <;> cases b <;> cases c <;> simp_all [optStrLt, strLt]
  exact charListLt_trans _ _ _ h1 h2

theorem optStrLt_conn : ∀ a b : Option String,
    optStrLt a b = false → optStrLt b a = false → a = b := by
  intro a b h1 h2
  cases a <;> cases b <;> simp_all [optStrLt, strLt]
  exact String.ext (charListLt_conn _ _ h1 h2)

theorem optIntLe_trans : ∀ a b c : Option Int,
    optIntLe a b = true → optIntLe b c = true → optIntLe a c = true := by
  intro a b c h1 h2
  cases a <;> cases b <;> cases c <;> (simp_all [optIntLe]; try omega)

theorem optIntLe_total : ∀ a b : Option Int,
    optIntLe a b = true ∨ optIntLe b a = true := by
  intro a b
  cases a <;> cases b <;> (simp [optIntLe]; try omega)

theorem bookLe_trans : ∀ a b c : Book,
    bookLe a b = true → bookLe b c = true → bookLe a c = true := by
  intro a b c h1 h2
  simp only [bookLe, Bool.or_eq_true, Bool.and_eq_true, beq_iff_eq] at h1 h2 ⊢
  rcases h1 with h1 | ⟨e1, h1⟩
  · rcases h2 with h2 | ⟨e2, h2⟩
    · exact Or.inl (optStrLt_trans _ _ _ h1 h2)
    · exact Or.inl (by rw [← e2]; exact h1)
  · rcases h2 with h2 | ⟨e2, h2⟩
    · exact Or.inl (by rw [e1]; exact h2)
    · refine Or.inr ⟨e1.trans e2, ?_⟩
      rcases h1 with h1 | ⟨f1, h1⟩
      · rcases h2 with h2 | ⟨f2, h2⟩
        · exact Or.inl (optStrLt_trans _ _ _ h1 h2)
        · exact Or.inl (by rw [← f2]; exact h1)
      · rcases h2 with h2 | ⟨f2, h2⟩
        · exact Or.inl (by rw [f1]; exact h2)
        · exact Or.inr ⟨f1.trans f2, optIntLe_trans _ _ _ h2 h1⟩

theorem bookLe_total : ∀ a b : Book, bookLe a b = true ∨ bookLe b a = true := by
  intro a b
  simp only [bookLe, Bool.or_eq_true, Bool.and_eq_true, beq_iff_eq]
  by_cases h1 : optStrLt a.title b.title = true
  · exact Or.inl (Or.inl h1)
  by_cases h2 : optStrLt b.title a.title = true
  · exact Or.inr (Or.inl h2)
  have ht : a.title = b.title :=
    optStrLt_conn _ _ (by simpa using h1) (by simpa using h2)
  by_cases h3 : optStrLt a.author b.author = true
  · exact Or.inl (Or.inr ⟨ht, Or.inl h3⟩)
  by_cases h4 : optStrLt b.author a.author = true
  · exact Or.inr (Or.inr ⟨ht.symm, Or.inl h4⟩)
  have ha : a.author = b.author :=
    optStrLt_conn _ _ (by simpa using h3) (by simpa using h4)
  rcases optIntLe_total b.rating a.rating with h | h
  · exact Or.inl (Or.inr ⟨ht, Or.inr ⟨ha, h⟩⟩)
  · exact Or.inr (Or.inr ⟨ht.symm, Or.inr ⟨ha.symm, h⟩⟩)

theorem aggLe_iff (a b : String × Nat) :
    aggLe a b = true ↔ b.2 < a.2 ∨ (a.2 = b.2 ∧ strLe b.1 a.1 = true) := by
  by_cases e : a.2 = b.2
  · simp [aggLe, e]
  · simp [aggLe, e]

theorem aggLe_trans : ∀ a b c : String × Nat,
    aggLe a b = true → aggLe b c = true → aggLe a c = true := by
  intro a b c h1 h2
  rw [aggLe_iff] at h1 h2 ⊢
  rcases h1 with h1 | ⟨e1, h1⟩
  · rcases h2 with h2 | ⟨e2, h2⟩
    · exact Or.inl (by omega)
    · exact Or.inl (by omega)
  · rcases h2 with h2 | ⟨e2, h2⟩
    · exact Or.inl (by omega)
    · exact Or.inr ⟨e1.trans e2, strLe_trans _ _ _ h2 h1⟩

theorem aggLe_total : ∀ a b : String × Nat,
    aggLe a b = true ∨ aggLe b a = true := by
  intro a b
  rw [aggLe_iff, aggLe_iff]
  rcases Nat.lt_trichotomy a.2 b.2 with h | h | h
  · exact Or.inr (Or.inl h)
  · rcases strLe_total a.1 b.1 with h' | h'
    · exact Or.inr (Or.inr ⟨h.symm, h'⟩)
    · exact Or.inl (Or.inr ⟨h, h'⟩)
  · exact Or.inl (Or.inl h)

/-- Retrieval by object id succeeds whenever a matching document exists. -/
theorem find_by_id_isSome {db : List Book} {b : Book} (hb : b ∈ db) :
    ∃ y, db.find? (fun x => x.id == b.id) = some y := by
  have : (db.find? (fun x => x.id == b.id)).isSome :=
    List.find?_isSome.mpr ⟨b, hb, by simp⟩
  exact Option.isSome_iff_exists.mp this

/-! ## Branch equations for `search_results` -/

theorem search_results_private_isbn (db : List Book) (u : String)
    (fields : BookForm) (page : Nat) (hm : fields.private_view = some "on")
    (hne : form_isbn fields.isbn ≠ 0) :
    search_results db u fields page =
      some (paginate 7 page (sortByTitle (db.filter (fun b =>
          b.user == u && b.ISBN == some (form_isbn fields.isbn)))),
        (page : Int) - 1, (page : Int) + 1) := by
  unfold search_results
  rw [hm, if_pos (by decide), if_pos hne]

theorem search_results_public_isbn (db : List Book) (u : String)
    (fields : BookForm) (page : Nat) (hm : fields.private_view ≠ some "on")
    (hne : form_isbn fields.isbn ≠ 0) :
    search_results db u fields page =
      some (paginate 7 page (sortByTitle (db.filter (fun b =>
          b.ISBN == some (form_isbn fields.isbn) && isPublicVisible b))),
        (page : Int) - 1, (page : Int) + 1) := by
  unfold search_results
  rw [if_neg (by simp [hm]), if_pos hne]

theorem search_results_private_noGenre (db : List Book) (u : String)
    (fields : BookForm) (page : Nat) {t a : String}
    (hm : fields.private_view = some "on") (h0 : form_isbn fields.isbn = 0)
    (hg : fields.genre = none) (ht : fields.title = some t)
    (ha : fields.author = some a) :
    search_results db u fields page =
      some (paginate 7 page (sortBooks (db.filter (fun b =>
          b.user == u && icontains b.title t && icontains b.author a &&
            ratingGte b.rating (form_rating fields.rating)))),
        (page : Int) - 1, (page : Int) + 1) := by
  unfold search_results
  rw [hm, if_pos (by decide), if_neg (by simp [h0]), hg, ht, ha]

theorem search_results_public_noGenre (db : List Book) (u : String)
    (fields : BookForm) (page : Nat) {t a : String}
    (hm : fields.private_view ≠ some "on") (h0 : form_isbn fields.isbn = 0)
    (hg : fields.genre = none) (ht : fields.title = some t)
    (ha : fields.author = some a) :
    search_results db u fields page =
      some (paginate 7 page (sortBooks (db.filter (fun b =>
          icontains b.title t && icontains b.author a &&
            ratingGte b.rating (form_rating fields.rating) &&
            isPublicVisible b))),
        (page : Int) - 1, (page : Int) + 1) := by
  unfold search_results
  rw [if_neg (by simp [hm]), if_neg (by simp [h0]), hg, ht, ha]

theorem search_results_private_genre (db : List Book) (u : String)
    (fields : BookForm) (page : Nat) {t a g : String}
    (hm : fields.private_view = some "on") (h0 : form_isbn fields.isbn = 0)
    (hg : fields.genre = some g) (ht : fields.title = some t)
    (ha : fields.author = some a) :
    search_results db u fields page =
      some (paginate 7 page (sortBooks (db.filter (fun b =>
          b.user == u && icontains b.title t && icontains b.author a &&
            ratingGte b.rating (form_rating fields.rating) &&
            b.genre == some g))),
        (page : Int) - 1, (page : Int) + 1) := by
  unfold search_results
  rw [hm, if_pos (by decide), if_neg (by simp [h0]), hg, ht, ha]

theorem search_results_public_genre (db : List Book) (u : String)
    (fields : BookForm) (page : Nat) {t a g : String}
    (hm : fields.private_view ≠ some "on") (h0 : form_isbn fields.isbn = 0)
    (hg : fields.genre = some g) (ht : fields.title = some t)
    (ha : fields.author = some a) :
    search_results db u fields page =
      some (paginate 7 page (sortBooks (db.filter (fun b =>
          icontains b.title t && icontains b.author a &&
            ratingGte b.rating (form_rating fields.rating) &&
            b.genre == some g && isPublicVisible b))),
        (page : Int) - 1, (page : Int) + 1) := by
  unfold search_results
  rw [if_neg (by simp [hm]), if_neg (by simp [h0]), hg, ht, ha]

theorem search_results_missing_field (db : List Book) (u : String)
    (fields : BookForm) (page : Nat) (h0 : form_isbn fields.isbn = 0)
    (hta : fields.title = none ∨ fields.author = none) :
    search_results db u fields page = none := by
  unfold search_results
  by_cases hm : (fields.private_view == some "on") = true
  · rw [if_pos hm, if_neg (by simp [h0])]
    rcases hg : fields.genre with - | g <;>
      rcases ht : fields.title with - | t <;>
        rcases ha : fields.author with - | a <;>
          first
            | rfl
            | (rcases hta with hx | hx <;> simp_all)
  · rw [if_neg hm, if_neg (by simp [h0])]
    rcases hg : fields.genre with - | g <;>
      rcases ht : fields.title with - | t <;>
        rcases ha : fields.author with - | a <;>
          first
            | rfl
            | (rcases hta with hx | hx <;> simp_all)

/-- Inversion principle for `search_results`: a rendered results page comes
from exactly one of the six querysets, and the previous/next links are
page-1 and page+1. -/
theorem search_results_inv {db : List Book} {u : String} {fields : BookForm}
    {page : Nat} {res : List Book} {prev next : Int}
    (h : search_results db u fields page = some (res, prev, next)) :
    prev = (page : Int) - 1 ∧ next = (page : Int) + 1 ∧
    ((form_isbn fields.isbn ≠ 0 ∧ fields.private_view = some "on" ∧
        res = paginate 7 page (sortByTitle (db.filter (fun b =>
          b.user == u && b.ISBN == some (form_isbn fields.isbn))))) ∨
     (form_isbn fields.isbn ≠ 0 ∧ fields.private_view ≠ some "on" ∧
        res = paginate 7 page (sortByTitle (db.filter (fun b =>
          b.ISBN == some (form_isbn fields.isbn) && isPublicVisible b)))) ∨
     (∃ t a, form_isbn fields.isbn = 0 ∧ fields.genre = none ∧
        fields.title = some t ∧ fields.author = some a ∧
        ((fields.private_view = some "on" ∧
           res = paginate 7 page (sortBooks (db.filter (fun b =>
             b.user == u && icontains b.title t && icontains b.author a &&
               ratingGte b.rating (form_rating fields.rating))))) ∨
         (fields.private_view ≠ some "on" ∧
           res = paginate 7 page (sortBooks (db.filter (fun b =>
             icontains b.title t && icontains b.author a &&
               ratingGte b.rating (form_rating fields.rating) &&
               isPublicVisible b)))))) ∨
     (∃ t a g, form_isbn fields.isbn = 0 ∧ fields.genre = some g ∧
        fields.title = some t ∧ fields.author = some a ∧
        ((fields.private_view = some "on" ∧
           res = paginate 7 page (sortBooks (db.filter (fun b =>
             b.user == u && icontains b.title t && icontains b.author a &&
               ratingGte b.rating (form_rating fields.rating) &&
               b.genre == some g)))) ∨
         (fields.private_view ≠ some "on" ∧
           res = paginate 7 page (sortBooks (db.filter (fun b =>
             icontains b.title t && icontains b.author a &&
               ratingGte b.rating (form_rating fields.rating) &&
               b.genre == some g && isPublicVisible b))))))) := by
  by_cases hne : form_isbn fields.isbn ≠ 0
  · by_cases hm : fields.private_view = some "on"
    · rw [search_results_private_isbn db u fields page hm hne] at h
      simp only [Option.some.injEq, Prod.mk.injEq] at h
      exact ⟨h.2.1.symm, h.2.2.symm, Or.inl ⟨hne, hm, h.1.symm⟩⟩
    · rw [search_results_public_isbn db u fields page hm hne] at h
      simp only [Option.some.injEq, Prod.mk.injEq] at h
      exact ⟨h.2.1.symm, h.2.2.symm, Or.inr (Or.inl ⟨hne, hm, h.1.symm⟩)⟩
  · have h0 : form_isbn fields.isbn = 0 := not_ne_iff.mp hne
    rcases ht : fields.title with - | t
    · rw [search_results_missing_field db u fields page h0 (Or.inl ht)] at h
      exact absurd h (by simp)
    rcases ha : fields.author with - | a
    · rw [search_results_missing_field db u fields page h0 (Or.inr ha)] at h
      exact absurd h (by simp)
    rcases hg : fields.genre with - | g
    · by_cases hm : fields.private_view = some "on"
      · rw [search_results_private_noGenre db u fields page hm h0 hg ht ha] at h
        simp only [Option.some.injEq, Prod.mk.injEq] at h
        exact ⟨h.2.1.symm, h.2.2.symm, Or.inr (Or.inr (Or.inl
          ⟨t, a, h0, rfl, rfl, rfl, Or.inl ⟨hm, h.1.symm⟩⟩))⟩
      · rw [search_results_public_noGenre db u fields page hm h0 hg ht ha] at h
        simp only [Option.some.injEq, Prod.mk.injEq] at h
        exact ⟨h.2.1.symm, h.2.2.symm, Or.inr (Or.inr (Or.inl
          ⟨t, a, h0, rfl, rfl, rfl, Or.inr ⟨hm, h.1.symm⟩⟩))⟩
    · by_cases hm : fields.private_view = some "on"
      · rw [search_results_private_genre db u fields page hm h0 hg ht ha] at h
        simp only [Option.some.injEq, Prod.mk.injEq] at h
        exact ⟨h.2.1.symm, h.2.2.symm, Or.inr (Or.inr (Or.inr
          ⟨t, a, g, h0, rfl, rfl, rfl, Or.inl ⟨hm, h.1.symm⟩⟩))⟩
      · rw [search_results_public_genre db u fields page hm h0 hg ht ha] at h
        simp only [Option.some.injEq, Prod.mk.injEq] at h
        exact ⟨h.2.1.symm, h.2.2.symm, Or.inr (Or.inr (Or.inr
          ⟨t, a, g, h0, rfl, rfl, rfl, Or.inr ⟨hm, h.1.symm⟩⟩))⟩

/-! ## The claims -/

/-- Claim C2: a failure or absent result of the external metadata lookup
never prevents the record from being saved.  Whether a creation persists is
independent of the lookup outcome; with a failed lookup a valid creation
stores the record with the default placeholder thumbnail, and an update
leaves the named record carrying the placeholder. -/
theorem lookup_failure_never_blocks_save :
    (∀ (db : List Book) (u : String) (form : BookForm) (newId : Nat)
       (lookup : Option String),
       (save_book db u form none newId).length =
         (save_book db u form lookup newId).length) ∧
    (∀ (db : List Book) (u : String) (form : BookForm) (newId : Nat),
       saveValid form = true →
       save_book db u form none newId =
         db ++ [mkBook newId u form placeholderThumbnail]) ∧
    (∀ (u : String) (db : List Book) (b : Book) (form : BookForm),
       b ∈ db → updateValid form = true →
       ∃ db', update_book u db b.id form none = some db' ∧
         (∃ b' ∈ db', b'.id = b.id ∧
           b'.book_thumbnail = some placeholderThumbnail) ∧
         ∀ b'' ∈ db', b''.id = b.id →
           b''.book_thumbnail = some placeholderThumbnail) := by
  refine ⟨?_, ?_, ?_⟩
  · intro db u form newId lookup
    unfold save_book
    by_cases h : saveValid form = true
    · rw [if_pos h, if_pos h]
      simp
    · rw [if_neg h, if_neg h]
  · intro db u form newId h
    unfold save_book
    rw [if_pos h]
    rfl
  · intro u db b form hb hv
    obtain ⟨y, hy⟩ := find_by_id_isSome hb
    refine ⟨db.map fun x => if x.id == b.id then applyUpdate x form none else x,
      ?_, ⟨applyUpdate b form none, ?_, rfl, rfl⟩, ?_⟩
    · unfold update_book
      rw [hy, if_pos hv]
    · exact List.mem_map.mpr ⟨b, hb, by simp⟩
    · intro b'' hb'' hid
      obtain ⟨x, hx, hfx⟩ := List.mem_map.mp hb''
      by_cases hxid : (x.id == b.id) = true
      · rw [if_pos hxid] at hfx
        rw [← hfx]
        rfl
      · rw [if_neg hxid] at hfx
        rw [← hfx] at hid
        exact absurd (by simp [hid]) hxid

/-- Witness for C2 at concrete data. -/
theorem lookup_failure_never_blocks_save_witness :
    save_book wDb "bob" wSaveForm none 4 =
      wDb ++ [mkBook 4 "bob" wSaveForm placeholderThumbnail] ∧
    ∃ db', update_book "bob" wDb wBook1.id wSaveForm none = some db' ∧
      (∃ b' ∈ db', b'.id = wBook1.id ∧
        b'.book_thumbnail = some placeholderThumbnail) ∧
      ∀ b'' ∈ db', b''.id = wBook1.id →
        b''.book_thumbnail = some placeholderThumbnail :=
  ⟨lookup_failure_never_blocks_save.2.1 wDb "bob" wSaveForm 4 (by decide),
   lookup_failure_never_blocks_save.2.2 "bob" wDb wBook1 wSaveForm (by decide)
     (by decide)⟩

/-- Claim C4: record update and deletion succeed for any authenticated user
given only that the target record exists — in particular for a user who does
not own the record; no ownership comparison is made. -/
theorem no_ownership_check_on_update_delete :
    (∀ (username : String) (db : List Book) (b : Book) (form : BookForm)
       (lookup : Option String),
       b ∈ db → b.user ≠ username → updateValid form = true →
       update_book username db b.id form lookup =
         some (db.map fun x => if x.id == b.id then applyUpdate x form lookup else x)) ∧
    (∀ (username : String) (db : List Book) (b : Book),
       b ∈ db → b.user ≠ username →
       delete_book username db b.id = some (db.filter fun x => !(x.id == b.id))) := by
  constructor
  · intro username db b form lookup hb _ hv
    obtain ⟨y, hy⟩ := find_by_id_isSome hb
    unfold update_book
    rw [hy, if_pos hv]
  · intro username db b hb _
    obtain ⟨y, hy⟩ := find_by_id_isSome hb
    unfold delete_book
    rw [hy]

/-- Witness for C4: `bob` edits and deletes a record owned by `alice`. -/
theorem no_ownership_check_on_update_delete_witness :
    update_book "bob" wDb wBook1.id wSaveForm none =
      some (wDb.map fun x => if x.id == wBook1.id then applyUpdate x wSaveForm none else x) ∧
    delete_book "bob" wDb wBook1.id =
      some (wDb.filter fun x => !(x.id == wBook1.id)) :=
  ⟨no_ownership_check_on_update_delete.1 "bob" wDb wBook1 wSaveForm none
      (by decide) (by decide) (by decide),
   no_ownership_check_on_update_delete.2 "bob" wDb wBook1 (by decide) (by decide)⟩

/-- Claim C5: after an account deletion — self-service or by an admin — no
record owned by the deleted account remains in the catalog store. -/
theorem account_deletion_leaves_no_owned_books :
    (∀ (st : AppState) (username : String) (b : Book),
       b ∈ (delete_user st username).books → b.user ≠ username) ∧
    (∀ (st : AppState) (uid : Nat) (u : User) (st' : AppState) (b : Book),
       st.users.find? (fun v => v.id == uid) = some u → u.username ≠ "admin" →
       admin_delete_user st uid = some st' → b ∈ st'.books →
       b.user ≠ u.username) := by
  constructor
  · intro st username b hb
    have h := (List.mem_filter.mp hb).2
    simpa using h
  · intro st uid u st' b hfind hadmin hdel hb
    have e : admin_delete_user st uid =
        some { users := st.users.filter (fun v => !(v.id == uid)),
               books := st.books.filter (fun x => !(x.user == u.username)) } := by
      unfold admin_delete_user
      rw [hfind]
      exact if_neg (by simpa using hadmin)
    rw [e] at hdel
    obtain rfl := Option.some.inj hdel
    have h := (List.mem_filter.mp hb).2
    simpa using h

/-- Witness for C5: deleting `bob` removes his records; an admin deleting
`alice` removes hers. -/
theorem account_deletion_leaves_no_owned_books_witness :
    wBook1.user ≠ "bob" ∧ wBook2.user ≠ "alice" :=
  ⟨account_deletion_leaves_no_owned_books.1 wState "bob" wBook1 (by decide),
   account_deletion_leaves_no_owned_books.2 wState 2 wUserAlice
     ⟨[wUserAdmin, wUserBob], [wBook2, wBook3]⟩ wBook2 (by decide) (by decide)
     (by decide) (by decide)⟩

/-- Claim C6: the genre and sample-record loaders are no-ops on a non-empty
collection, and invoking either loader twice equals invoking it once, so no
entries are duplicated. -/
theorem seeding_idempotent :
    (∀ (db : List Genre) (file : Option (List Genre)),
       db ≠ [] → load_genres db file = db) ∧
    (∀ (db : List Genre) (file : Option (List Genre)),
       load_genres (load_genres db file) file = load_genres db file) ∧
    (∀ (db : List Book) (file : Option (List Book)),
       db ≠ [] → load_books db file = db) ∧
    (∀ (db : List Book) (file : Option (List Book)),
       load_books (load_books db file) file = load_books db file) := by
  refine ⟨?_, ?_, ?_, ?_⟩
  · intro db file h
    unfold load_genres
    rw [if_neg (by simpa using h)]
  · intro db file
    by_cases h : db.isEmpty
    · cases file with
      | none =>
        have e1 : load_genres db none = db := by
          unfold load_genres
          rw [if_pos h]
        rw [e1, e1]
      | some gs =>
        have e1 : load_genres db (some gs) = db ++ gs := by
          unfold load_genres
          rw [if_pos h]
        rw [e1]
        unfold load_genres
        by_cases hg : (db ++ gs).isEmpty
        · rw [if_pos hg]
          have hdb : db = [] := by simpa using h
          have h2 : db ++ gs = [] := by simpa using hg
          rw [hdb] at h2
          simp only [List.nil_append] at h2
          simp [hdb, h2]
        · rw [if_neg hg]
    · have e1 : load_genres db file = db := by
        unfold load_genres
        rw [if_neg h]
      rw [e1, e1]
  · intro db file h
    unfold load_books
    rw [if_neg (by simpa using h)]
  · intro db file
    by_cases h : db.isEmpty
    · cases file with
      | none =>
        have e1 : load_books db none = db := by
          unfold load_books
          rw [if_pos h]
        rw [e1, e1]
      | some bs =>
        have e1 : load_books db (some bs) = db ++ bs := by
          unfold load_books
          rw [if_pos h]
        rw [e1]
        unfold load_books
        by_cases hg : (db ++ bs).isEmpty
        · rw [if_pos hg]
          have hdb : db = [] := by simpa using h
          have h2 : db ++ bs = [] := by simpa using hg
          rw [hdb] at h2
          simp only [List.nil_append] at h2
          simp [hdb, h2]
        · rw [if_neg hg]
    · have e1 : load_books db file = db := by
        unfold load_books
        rw [if_neg h]
      rw [e1, e1]

/-- Witness for C6: the loaders leave non-empty collections untouched. -/
theorem seeding_idempotent_witness :
    load_genres [wGenre] (some [wGenre]) = [wGenre] ∧
    load_books [wBook1] (some [wBook1, wBook2]) = [wBook1] :=
  ⟨seeding_idempotent.1 [wGenre] (some [wGenre]) (by decide),
   seeding_idempotent.2.2.1 [wBook1] (some [wBook1, wBook2]) (by decide)⟩

/-- Claim C1: every record on a private-mode results page (visibility field
submitted as "on") is owned by the requesting account; every record on a
public-mode results page (any other submitted visibility value) carries the
public visibility value "off". -/
theorem search_results_scope :
    ∀ (db : List Book) (username : String) (fields : BookForm) (page : Nat)
      (res : List Book) (prev next : Int),
      search_results db username fields page = some (res, prev, next) →
      (fields.private_view = some "on" → ∀ b ∈ res, b.user = username) ∧
      (fields.private_view ≠ some "on" → ∀ b ∈ res, b.private_view = some "off") := by
  intro db username fields page res prev next h
  obtain ⟨-, -, hbr⟩ := search_results_inv h
  constructor
  · intro hm b hb
    rcases hbr with ⟨-, -, hres⟩ | ⟨-, hm', -⟩ |
      ⟨t, a, -, -, -, -, hc⟩ | ⟨t, a, g, -, -, -, -, hc⟩
    · rw [hres] at hb
      have hp := filter_prop_of_mem_branch hb
      simp only [Bool.and_eq_true, beq_iff_eq] at hp
      tauto
    · exact absurd hm hm'
    · rcases hc with ⟨-, hres⟩ | ⟨hm', -⟩
      · rw [hres] at hb
        have hp := filter_prop_of_mem_branch hb
        simp only [Bool.and_eq_true, beq_iff_eq] at hp
        tauto
      · exact absurd hm hm'
    · rcases hc with ⟨-, hres⟩ | ⟨hm', -⟩
      · rw [hres] at hb
        have hp := filter_prop_of_mem_branch hb
        simp only [Bool.and_eq_true, beq_iff_eq] at hp
        tauto
      · exact absurd hm hm'
  · intro hm b hb
    rcases hbr with ⟨-, hm', -⟩ | ⟨-, -, hres⟩ |
      ⟨t, a, -, -, -, -, hc⟩ | ⟨t, a, g, -, -, -, -, hc⟩
    · exact absurd hm' hm
    · rw [hres] at hb
      have hp := filter_prop_of_mem_branch hb
      simp only [Bool.and_eq_true, beq_iff_eq, isPublicVisible] at hp
      tauto
    · rcases hc with ⟨hm', -⟩ | ⟨-, hres⟩
      · exact absurd hm' hm
      · rw [hres] at hb
        have hp := filter_prop_of_mem_branch hb
        simp only [Bool.and_eq_true, beq_iff_eq, isPublicVisible] at hp
        tauto
    · rcases hc with ⟨hm', -⟩ | ⟨-, hres⟩
      · exact absurd hm' hm
      · rw [hres] at hb
        have hp := filter_prop_of_mem_branch hb
        simp only [Bool.and_eq_true, beq_iff_eq, isPublicVisible] at hp
        tauto

/-- Witness for C1: a private-mode search by `bob` returns only his own
records. -/
theorem search_results_scope_witness :
    wBook2.user = "bob" ∧ wBook3.user = "bob" := by
  have h := (search_results_scope wDb "bob" wFormPriv 1 [wBook2, wBook3] 0 2
    (by decide)).1 rfl
  exact ⟨h wBook2 (by simp), h wBook3 (by simp)⟩

/-- Claim C3: the results step selects exactly one of three query shapes:
ISBN given → exact match on that ISBN (owner-scoped in private mode,
publicly-visible-scoped otherwise); no genre given → case-insensitive
partial match on title and author with a minimum-rating filter, ordered by
title ascending then author ascending then rating descending; otherwise the
same query with an additional exact genre match. -/
theorem search_results_query_shape :
    ∀ (db : List Book) (username : String) (fields : BookForm) (page : Nat)
      (res : List Book) (prev next : Int),
      search_results db username fields page = some (res, prev, next) →
      (form_isbn fields.isbn ≠ 0 →
        ∀ b ∈ res, b.ISBN = some (form_isbn fields.isbn) ∧
          (fields.private_view = some "on" → b.user = username) ∧
          (fields.private_view ≠ some "on" → b.private_view = some "off")) ∧
      (form_isbn fields.isbn = 0 → fields.genre = none →
        ∃ t a, fields.title = some t ∧ fields.author = some a ∧
          (∀ b ∈ res, icontains b.title t = true ∧ icontains b.author a = true ∧
            ratingGte b.rating (form_rating fields.rating) = true) ∧
          res.Pairwise (fun x y => bookLe x y = true)) ∧
      (form_isbn fields.isbn = 0 → ∀ g, fields.genre = some g →
        ∃ t a, fields.title = some t ∧ fields.author = some a ∧
          (∀ b ∈ res, icontains b.title t = true ∧ icontains b.author a = true ∧
            ratingGte b.rating (form_rating fields.rating) = true ∧
            b.genre = some g) ∧
          res.Pairwise (fun x y => bookLe x y = true)) := by
  intro db username fields page res prev next h
  obtain ⟨-, -, hbr⟩ := search_results_inv h
  refine ⟨?_, ?_, ?_⟩
  · intro hne b hb
    rcases hbr with ⟨-, hm, hres⟩ | ⟨-, hm, hres⟩ |
      ⟨t, a, h0, -⟩ | ⟨t, a, g, h0, -⟩
    · rw [hres] at hb
      have hp := filter_prop_of_mem_branch hb
      simp only [Bool.and_eq_true, beq_iff_eq] at hp
      exact ⟨hp.2, fun _ => hp.1, fun hx => absurd hm hx⟩
    · rw [hres] at hb
      have hp := filter_prop_of_mem_branch hb
      simp only [Bool.and_eq_true, beq_iff_eq, isPublicVisible] at hp
      exact ⟨hp.1, fun hx => absurd hx hm, fun _ => hp.2⟩
    · exact absurd h0 hne
    · exact absurd h0 hne
  · intro h0 hg
    rcases hbr with ⟨hne, -⟩ | ⟨hne, -⟩ |
      ⟨t, a, -, -, ht, ha, hc⟩ | ⟨t, a, g', -, hg', -⟩
    · exact absurd h0 hne
    · exact absurd h0 hne
    · refine ⟨t, a, ht, ha, ?_, ?_⟩
      · intro b hb
        rcases hc with ⟨-, hres⟩ | ⟨-, hres⟩ <;>
          · rw [hres] at hb
            have hp := filter_prop_of_mem_branch hb
            simp only [Bool.and_eq_true, beq_iff_eq] at hp
            tauto
      · rcases hc with ⟨-, hres⟩ | ⟨-, hres⟩ <;>
          · rw [hres]
            exact pairwise_paginate _ _
              (pairwise_sortLe bookLe_trans bookLe_total _)
    · rw [hg'] at hg
      exact absurd hg (by simp)
  · intro h0 g hg
    rcases hbr with ⟨hne, -⟩ | ⟨hne, -⟩ |
      ⟨t, a, -, hg', -⟩ | ⟨t, a, g', -, hg', ht, ha, hc⟩
    · exact absurd h0 hne
    · exact absurd h0 hne
    · rw [hg'] at hg
      exact absurd hg (by simp)
    · have hgg : g' = g := by
        rw [hg'] at hg
        exact Option.some.inj hg
      subst hgg
      refine ⟨t, a, ht, ha, ?_, ?_⟩
      · intro b hb
        rcases hc with ⟨-, hres⟩ | ⟨-, hres⟩ <;>
          · rw [hres] at hb
            have hp := filter_prop_of_mem_branch hb
            simp only [Bool.and_eq_true, beq_iff_eq] at hp
            tauto
      · rcases hc with ⟨-, hres⟩ | ⟨-, hres⟩ <;>
          · rw [hres]
            exact pairwise_paginate _ _
              (pairwise_sortLe bookLe_trans bookLe_total _)

/-- Witness for C3: a private search with a genre selected runs the
title/author/rating query with an exact genre match, and the page is sorted
by the book comparator. -/
theorem search_results_query_shape_witness :
    ∃ t a, wFormGenre.title = some t ∧ wFormGenre.author = some a ∧
      (∀ b ∈ [wBook2], icontains b.title t = true ∧
        icontains b.author a = true ∧
        ratingGte b.rating (form_rating wFormGenre.rating) = true ∧
        b.genre = some "Fantasy") ∧
      ([wBook2] : List Book).Pairwise (fun x y => bookLe x y = true) :=
  (search_results_query_shape wDb "bob" wFormGenre 1 [wBook2] 0 2
    (by decide)).2.2 (by decide) "Fantasy" rfl

/-- Claim C7: the admin dashboard per-genre record counts are sorted by
descending count, with ties between genres of equal count broken by the
genre label. -/
theorem genre_aggregate_sorted (books : List Book) :
    (tuple_in_right_order books).Pairwise
      (fun a b => b.2 < a.2 ∨ (a.2 = b.2 ∧ strLe b.1 a.1 = true)) :=
  (pairwise_sortLe aggLe_trans aggLe_total (genre_dict books)).imp
    (fun hab => (aggLe_iff _ _).mp hab)

/-- Claim C8: every member-page, admin-dashboard and search-results page
holds at most the fixed page size of records, and the previous/next links
are computed as page-1 and page+1 with no clamping at either bound (page 1
already links back to page 0). -/
theorem pagination_fixed_size_unclamped :
    (∀ (db : List Book) (u : String) (page : Nat),
       (member_page db u page).1.length ≤ 7 ∧
       (member_page db u page).2.1 = (page : Int) - 1 ∧
       (member_page db u page).2.2 = (page : Int) + 1) ∧
    (∀ (users : List User) (books : List Book) (page : Nat),
       (admin_dashboard users books page).1.length ≤ 10 ∧
       (admin_dashboard users books page).2.1 = (page : Int) - 1 ∧
       (admin_dashboard users books page).2.2.1 = (page : Int) + 1) ∧
    (∀ (db : List Book) (u : String) (fields : BookForm) (page : Nat)
       (res : List Book) (prev next : Int),
       search_results db u fields page = some (res, prev, next) →
       res.length ≤ 7 ∧ prev = (page : Int) - 1 ∧ next = (page : Int) + 1) := by
  refine ⟨?_, ?_, ?_⟩
  · intro db u page
    exact ⟨length_paginate_le _ _ _, rfl, rfl⟩
  · intro users books page
    exact ⟨length_paginate_le _ _ _, rfl, rfl⟩
  · intro db u fields page res prev next h
    obtain ⟨hprev, hnext, hbr⟩ := search_results_inv h
    refine ⟨?_, hprev, hnext⟩
    rcases hbr with ⟨-, -, hres⟩ | ⟨-, -, hres⟩ |
      ⟨t, a, -, -, -, -, ⟨-, hres⟩ | ⟨-, hres⟩⟩ |
      ⟨t, a, g, -, -, -, -, ⟨-, hres⟩ | ⟨-, hres⟩⟩ <;>
      (rw [hres]; exact length_paginate_le _ _ _)

/-- Witness for C8: page 1 of a search holds at most 7 records and links to
pages 0 and 2. -/
theorem pagination_fixed_size_unclamped_witness :
    ([wBook2, wBook3] : List Book).length ≤ 7 ∧
    (0 : Int) = ((1 : Nat) : Int) - 1 ∧ (2 : Int) = ((1 : Nat) : Int) + 1 :=
  pagination_fixed_size_unclamped.2.2 wDb "bob" wFormPriv 1 [wBook2, wBook3]
    0 2 (by decide)

/-- Claim C9: the admin user update re-hashes the password only when it was
changed: a submitted value equal to the stored hash and carrying the `$2b$`
prefix convention is kept verbatim; any other submitted value is hashed
before being stored. -/
theorem password_rehashed_only_when_changed :
    ∀ (hashPw : String → String) (users : List User) (uid : Nat)
      (form : AdminUserForm) (u : User) (p : String),
      users.find? (fun v => v.id == uid) = some u →
      form.password = some p → form.password_conf = some p →
      ∃ users', update_user hashPw users uid form = some users' ∧
        ∀ v ∈ users', v.id = uid →
          v.password =
            if p = u.password ∧ strStartsWith p "$2b$" = true then u.password
            else hashPw p := by
  intro hashPw users uid form u p hfind hp hpc
  have e : update_user hashPw users uid form =
      some (users.map fun v =>
        if v.id == uid then
          { v with
            active := if u.username == "admin" then true
              else if form.active == some "on" then true else false
            email := form.email
            first_name := form.first_name
            last_name := form.last_name
            password := if p == u.password && strStartsWith p "$2b$" then p
              else hashPw p }
        else v) := by
    unfold update_user
    rw [hfind, hp, hpc]
    simp only [beq_self_eq_true, Bool.not_true, Bool.false_eq_true, if_false]
  refine ⟨_, e, ?_⟩
  intro v hv hvid
  obtain ⟨x, hx, hfx⟩ := List.mem_map.mp hv
  by_cases hxid : (x.id == uid) = true
  · rw [if_pos hxid] at hfx
    rw [← hfx]
    by_cases hcond : p = u.password ∧ strStartsWith p "$2b$" = true
    · rw [if_pos hcond]
      have hb : (p == u.password && strStartsWith p "$2b$") = true := by
        have h1 : (p == u.password) = true := beq_iff_eq.mpr hcond.1
        rw [h1, hcond.2]
        rfl
      simp only [hb, if_true]
      exact hcond.1
    · rw [if_neg hcond]
      have hb : (p == u.password && strStartsWith p "$2b$") = false := by
        rcases not_and_or.mp hcond with hne | hns
        · simp [hne]
        · simp [eq_false_of_ne_true hns, Bool.and_eq_false_iff]
      simp only [hb, Bool.false_eq_true, if_false]
  · rw [if_neg hxid] at hfx
    rw [← hfx] at hvid
    exact absurd (by simp [hvid]) hxid

/-- Witness for C9: resubmitting the stored `$2b$` hash leaves it
unchanged. -/
theorem password_rehashed_only_when_changed_witness :
    ∃ users', update_user wHash [wUserAlice] 2 wAdminForm = some users' ∧
      ∀ v ∈ users', v.id = 2 →
        v.password =
          if "$2b$abc" = wUserAlice.password ∧
              strStartsWith "$2b$abc" "$2b$" = true then wUserAlice.password
          else wHash "$2b$abc" :=
  password_rehashed_only_when_changed wHash [wUserAlice] 2 wAdminForm
    wUserAlice "$2b$abc" (by decide) rfl rfl

/-- Counterexample to claim C10 as stated: a record created through
`save_book` with the visibility checkbox absent does NOT store the submitted
value unchanged — the constructor substitutes the declared default, so the
stored visibility is "off" and the record IS matched by the public-mode
search filter. -/
theorem creation_visibility_default_counterexample :
    wSaveForm.private_view = none ∧
    save_book wDb "bob" wSaveForm none 4 =
      wDb ++ [mkBook 4 "bob" wSaveForm placeholderThumbnail] ∧
    (mkBook 4 "bob" wSaveForm placeholderThumbnail).private_view ≠
      wSaveForm.private_view ∧
    (mkBook 4 "bob" wSaveForm placeholderThumbnail).private_view = some "off" ∧
    isPublicVisible (mkBook 4 "bob" wSaveForm placeholderThumbnail) = true := by
  decide

/-- Claim C10 (amended): a record update normalises the stored visibility to
exactly "on" or "off"; record creation performs no such normalisation but
routes the submitted value through the field descriptor, which substitutes
the declared default for an absent value — a present value is stored
unchanged, and a record created with the checkbox absent stores the default
"off", which the public-mode search filter matches. -/
theorem visibility_update_normalised_create_defaulted :
    (∀ (u : String) (db : List Book) (bid : Nat) (form : BookForm)
       (lookup : Option String) (db' : List Book),
       update_book u db bid form lookup = some db' → updateValid form = true →
       ∀ b ∈ db', b.id = bid →
         b.private_view =
           some (if form.private_view == some "on" then "on" else "off")) ∧
    (∀ (db : List Book) (u : String) (form : BookForm) (lookup : Option String)
       (newId : Nat), saveValid form = true →
       ∃ b, save_book db u form lookup newId = db ++ [b] ∧
         b.private_view = strFieldDefault "off" form.private_view ∧
         (∀ s, form.private_view = some s → b.private_view = some s) ∧
         (form.private_view = none → b.private_view = some "off" ∧
           isPublicVisible b = true)) := by
  constructor
  · intro u db bid form lookup db' hdb hv b hb hid
    unfold update_book at hdb
    cases hfind : db.find? (fun x => x.id == bid) with
    | none =>
      rw [hfind] at hdb
      exact absurd hdb (by simp)
    | some y =>
      rw [hfind, if_pos hv] at hdb
      obtain rfl := Option.some.inj hdb
      obtain ⟨x, hx, hfx⟩ := List.mem_map.mp hb
      by_cases hxid : (x.id == bid) = true
      · rw [if_pos hxid] at hfx
        rw [← hfx]
        rfl
      · rw [if_neg hxid] at hfx
        rw [← hfx] at hid
        exact absurd (by simp [hid]) hxid
  · intro db u form lookup newId hv
    refine ⟨mkBook newId u form (thumbnailFor lookup), ?_, rfl, ?_, ?_⟩
    · unfold save_book
      rw [if_pos hv]
    · intro s hs
      simp [mkBook, strFieldDefault, hs]
    · intro hn
      refine ⟨?_, ?_⟩
      · simp [mkBook, strFieldDefault, hn]
      · simp [isPublicVisible, mkBook, strFieldDefault, hn]

/-- Witness for C10 (amended): updating with the checkbox absent stores
"off"; creating with the checkbox absent also stores "off" through the
default, and the record is publicly visible. -/
theorem visibility_update_normalised_create_defaulted_witness :
    (∀ b ∈ wDb.map
        (fun x => if x.id == wBook1.id then applyUpdate x wSaveForm none else x),
       b.id = wBook1.id →
       b.private_view =
         some (if wSaveForm.private_view == some "on" then "on" else "off")) ∧
    (∃ b, save_book wDb "bob" wSaveForm none 4 = wDb ++ [b] ∧
       b.private_view = strFieldDefault "off" wSaveForm.private_view ∧
       (∀ s, wSaveForm.private_view = some s → b.private_view = some s) ∧
       (wSaveForm.private_view = none → b.private_view = some "off" ∧
         isPublicVisible b = true)) :=
  ⟨visibility_update_normalised_create_defaulted.1 "bob" wDb wBook1.id wSaveForm
      none
      (wDb.map fun x => if x.id == wBook1.id then applyUpdate x wSaveForm none else x)
      (by decide) (by decide),
   visibility_update_normalised_create_defaulted.2 wDb "bob" wSaveForm none 4
     (by decide)⟩

end BookRepository
